import Mathlib

/-!
Verification of the StoryForge safe external-operation boundary.

This file shallowly embeds the security-relevant functions of the
repository (src/Writer/Interface/Wrapper.py, src/Writer/PrintUtils.py,
src/Tools/Test.py) as Lean definitions and proves or refutes the frozen
claims about them.  File I/O, subprocess launching and the ollama network
client are external collaborators: they are abstracted as parameters
(an environment record of boolean oracles) while every string-level
computation — validation, parsing, path arithmetic, command construction —
is translated faithfully, including Python-specific semantics
(re.match with a final dollar anchor also matching before one trailing
newline, str.split, str.rsplit, posixpath.normpath, pathlib resolution).
All definitions are structurally recursive so that every theorem can be
checked by evaluation on concrete inputs.
-/

namespace StoryForge

/-! ## String toolkit

Structurally recursive counterparts of the Python string operations the
source uses, over `List Char`.  (The core `String` functions are avoided
because several of them do not reduce inside the kernel.) -/

/-- Split at the first occurrence of the (nonempty) separator substring:
Python s.split(sep, 1) when sep occurs; none when it does not occur. -/
def splitFirstSub (sep : List Char) : List Char → Option (List Char × List Char)
  | [] => none
  | c :: rest =>
    if sep.isPrefixOf (c :: rest) then some ([], (c :: rest).drop sep.length)
    else
      match splitFirstSub sep rest with
      | some p => some (c :: p.1, p.2)
      | none => none

/-- Python's substring containment test sep in s. -/
def containsSub (sep cs : List Char) : Bool :=
  (splitFirstSub sep cs).isSome

/-- Python s.rsplit(sep, 1) for a single-character separator, when it
occurs: split at the last occurrence. -/
def rsplitLastChar (sep : Char) (cs : List Char) : Option (List Char × List Char) :=
  match splitFirstSub [sep] cs.reverse with
  | some p => some (p.2.reverse, p.1.reverse)
  | none => none

/-- Python s.split(sep) for a single-character separator (keeps empty
pieces, as Python does). -/
def splitCharL (sep : Char) : List Char → List (List Char)
  | [] => [[]]
  | c :: rest =>
    match splitCharL sep rest with
    | h :: t => if c = sep then [] :: h :: t else (c :: h) :: t
    | [] => [[c]]

/-- Python s.split() with no argument: split on whitespace runs. -/
def splitWs : List Char → List (List Char)
  | [] => [[]]
  | c :: rest =>
    match splitWs rest with
    | h :: t => if c.isWhitespace then [] :: h :: t else (c :: h) :: t
    | [] => [[c]]

/-- Join pieces with a separator (Python sep.join). -/
def intercalateL (sep : List Char) : List (List Char) → List Char
  | [] => []
  | [x] => x
  | x :: y :: t => x ++ sep ++ intercalateL sep (y :: t)

/-- Python s.startswith(p). -/
def strPre (p s : String) : Bool := p.data.isPrefixOf s.data

/-- Whether a path string begins with a slash. -/
def leadSlash : List Char → Bool
  | '/' :: _ => true
  | _ => false

/-- Python s.lower() (ASCII model). -/
def lowerStr (s : String) : String := String.mk (s.data.map Char.toLower)

/-- Python s.strip() with no argument (ASCII whitespace model). -/
def pyStrip (s : String) : String :=
  String.mk (((s.data.dropWhile Char.isWhitespace).reverse.dropWhile
    Char.isWhitespace).reverse)

/-- Python s.split() producing tokens: empty pieces are absent. -/
def pyTokens (s : String) : List String :=
  ((splitWs s.data).filter (fun l => l ≠ [])).map String.mk

/-! ## Wrapper.py: character classes and validators

Source: src/Writer/Interface/Wrapper.py lines 39-101.
ALLOWED_PACKAGE_PATTERN matches one or more of [a-zA-Z0-9_-] anchored at
both ends; ALLOWED_MODEL_PATTERN likewise with [a-zA-Z0-9:._-]. -/

/-- A character of the model-name class [a-zA-Z0-9:._-]. -/
def isModelChar (c : Char) : Bool :=
  c.isAlpha || c.isDigit || c = ':' || c = '.' || c = '_' || c = '-'

/-- A character of the package-name class [a-zA-Z0-9_-]. -/
def isPackageChar (c : Char) : Bool :=
  c.isAlpha || c.isDigit || c = '_' || c = '-'

/-- Truthiness of Python re.match with a pattern anchored as
one-or-more class characters followed by a final dollar, applied to s.
In Python a final dollar (without re.MULTILINE) matches at the end of
the string or just before one newline at the end of the string, so s
matches iff s is a nonempty run of class characters, optionally
followed by a single trailing newline. -/
def reMatchClassPlus (cls : Char → Bool) (s : String) : Bool :=
  (s.data ≠ [] && s.data.all cls) ||
    (s.data.getLast? = some '\n' && s.data.dropLast ≠ [] && s.data.dropLast.all cls)

/-- Embedding of validate_model_name (Wrapper.py lines 69-89) on string
input: reject when len > MAX_MODEL_NAME_LENGTH = 200, else test
ALLOWED_MODEL_PATTERN.match. -/
def validate_model_name (s : String) : Bool :=
  if s.length > 200 then false else reMatchClassPlus isModelChar s

/-- Embedding of validate_package_name (Wrapper.py lines 46-66) on string
input: reject when len > MAX_PACKAGE_NAME_LENGTH = 100, else test
ALLOWED_PACKAGE_PATTERN.match. -/
def validate_package_name (s : String) : Bool :=
  if s.length > 100 then false else reMatchClassPlus isPackageChar s

/-- ALLOWED_PROVIDERS (Wrapper.py line 41). -/
def allowedProviders : List String := ["ollama", "gemini", "openai", "local"]

/-- Embedding of validate_provider (Wrapper.py lines 92-101) on string
input: provider.lower() in ALLOWED_PROVIDERS. -/
def validate_provider (s : String) : Bool :=
  allowedProviders.contains (lowerStr s)

/-! ## Python dynamic values

The spec documents the validators as total over arbitrary values.
validate_model_name and validate_package_name guard with
isinstance(x, str); validate_provider calls .lower() unconditionally,
which raises AttributeError on a non-string.  We model the relevant
fragment of Python's value universe and each validator as a computation
that either returns a value or raises an exception. -/

/-- A Python value passed to a validator: a string or a non-string
(int, None, bool as representatives). -/
inductive PyValue where
  | str (s : String)
  | int (n : Int)
  | noneV
  | boolV (b : Bool)
deriving DecidableEq, Repr

/-- A raised Python exception (only the kind matters here). -/
inductive PyExn where
  | attributeError
  | typeError
deriving DecidableEq, Repr

/-- Whether a PyValue is a string. -/
def PyValue.isStr : PyValue → Bool
  | .str _ => true
  | _ => false

/-- validate_model_name over arbitrary values: the isinstance check runs
first, so non-strings return False and nothing raises. -/
def validate_model_name_py : PyValue → Except PyExn Bool
  | .str s => .ok (validate_model_name s)
  | _ => .ok false

/-- validate_package_name over arbitrary values: the isinstance check
runs first, so non-strings return False and nothing raises. -/
def validate_package_name_py : PyValue → Except PyExn Bool
  | .str s => .ok (validate_package_name s)
  | _ => .ok false

/-- validate_provider over arbitrary values: the body is
provider.lower() in ALLOWED_PROVIDERS with no isinstance guard, so a
non-string raises AttributeError at the .lower() attribute lookup. -/
def validate_provider_py : PyValue → Except PyExn Bool
  | .str s => .ok (validate_provider s)
  | _ => .error .attributeError

/-! ## Path model

Posix paths.  An absolute resolved path is a list of components (no "",
"." or ".." entries); its string representation is "/" followed by the
components joined with "/".  pathlib's Path.resolve makes the path
absolute against the working directory and eliminates "." and ".."
lexically (no symlinks in the model); posixpath.normpath is the purely
lexical normalization; os.path.join and os.path.abspath follow
posixpath. -/

/-- The non-empty slash-separated components of a path string. -/
def pathComps (s : String) : List String :=
  ((splitCharL '/' s.data).filter (fun l => l ≠ [])).map String.mk

/-- Whether a path string is absolute. -/
def isAbs (s : String) : Bool := leadSlash s.data

/-- Lexically eliminate "." and ".." from an absolute component list;
".." at the root is dropped (resolving "/.." gives "/"). -/
def resolveComps (cs : List String) : List String :=
  cs.foldl (fun acc c =>
    if c = "." then acc
    else if c = ".." then acc.dropLast
    else acc ++ [c]) []

/-- str() of an absolute path given by its resolved components. -/
def reprPath (cs : List String) : String :=
  String.mk ('/' :: intercalateL ['/'] (cs.map String.data))

/-- Path(s).resolve() against the resolved working directory cwd. -/
def pyResolve (cwd : List String) (s : String) : List String :=
  resolveComps (if isAbs s then pathComps s else cwd ++ pathComps s)

/-- (base_path / file_path).resolve() where base_path is
Path(base_dir).resolve(): pathlib's slash operator discards the left
side when the right side is absolute. -/
def joinedTarget (cwd : List String) (base_dir file_path : String) : List String :=
  let basePath := pyResolve cwd base_dir
  resolveComps (if isAbs file_path then pathComps file_path
    else basePath ++ pathComps file_path)

/-- The containment test shared by safe_load_json_file
(Wrapper.py line 195) and validate_file_path (Test.py line 145):
str(target_path).startswith(str(base_path)) on the resolved paths. -/
def safe_load_json_check (cwd : List String) (base_dir file_path : String) : Bool :=
  strPre (reprPath (pyResolve cwd base_dir))
    (reprPath (joinedTarget cwd base_dir file_path))

/-- The filesystem as an external collaborator: existence, regular-file
test, and the parsed JSON content (none when json.load raises). -/
structure FileSys where
  existsAt : List String → Bool
  isFileAt : List String → Bool
  jsonAt : List String → Option String

/-- Embedding of safe_load_json_file (Wrapper.py lines 179-218): on a
failed containment check, a missing file, a non-file or a JSON parse
error the except/None paths return None; otherwise the parsed data. -/
def safe_load_json_file (fsys : FileSys) (cwd : List String)
    (file_path : String) (base_dir : String) : Option String :=
  if ¬ safe_load_json_check cwd base_dir file_path then none
  else
    let t := joinedTarget cwd base_dir file_path
    if ¬ fsys.existsAt t then none
    else if ¬ fsys.isFileAt t then none
    else fsys.jsonAt t

/-- Embedding of validate_file_path (Test.py lines 126-156): the
ValueError raised on a failed containment check is caught by the
enclosing except clause, which returns None; a missing target also
yields None; otherwise the resolved target. -/
def validate_file_path (fsys : FileSys) (cwd : List String)
    (file_path : String) (base_dir : String) : Option (List String) :=
  if ¬ safe_load_json_check cwd base_dir file_path then none
  else
    let t := joinedTarget cwd base_dir file_path
    if ¬ fsys.existsAt t then none else some t

/-! ### posixpath functions, used by PrintUtils.py -/

/-- One step of posixpath.normpath's component loop. -/
def normpathStep (slashes : Nat) (acc : List String) (comp : String) :
    List String :=
  if comp = "" || comp = "." then acc
  else if comp ≠ ".." || (slashes = 0 && acc = []) ||
      acc.getLast? = some ".." then acc ++ [comp]
  else acc.dropLast

/-- posixpath.normpath: purely lexical normalization; leading ".."
components of a relative path are kept, "a/.." collapses, one or two
leading slashes are preserved (two only for an exactly-double slash). -/
def pyNormpath (p : String) : String :=
  if p.data = [] then "."
  else
    let slashes : Nat :=
      match p.data with
      | '/' :: '/' :: '/' :: _ => 1
      | '/' :: '/' :: _ => 2
      | '/' :: _ => 1
      | _ => 0
    let ncomps := ((splitCharL '/' p.data).map String.mk).foldl
      (normpathStep slashes) []
    let out := String.mk (List.replicate slashes '/' ++
      intercalateL ['/'] (ncomps.map String.data))
    if out.data = [] then "." else out

/-- posixpath.join on two arguments. -/
def pyJoin (a b : String) : String :=
  if leadSlash b.data then b
  else if a.data = [] || a.data.getLast? = some '/' then a ++ b
  else a ++ "/" ++ b

/-- posixpath.abspath against the working directory string cwd. -/
def pyAbspath (cwd p : String) : String :=
  pyNormpath (if leadSlash p.data then p else pyJoin cwd p)

/-- Embedding of Logger._secure_path_join (PrintUtils.py lines 74-83):
os.path.join of base with each extra component, os.path.abspath of the
join and of the base, then the naive startswith containment test; a
failure raises ValueError. -/
def secure_path_join (cwd : String) (base : String) (paths : List String) :
    Except String String :=
  let joined := pyAbspath cwd (paths.foldl pyJoin base)
  let baseAbs := pyAbspath cwd base
  if strPre baseAbs joined then .ok joined
  else .error "Path traversal detected"

/-! ## PrintUtils.py: Logger

Source: src/Writer/PrintUtils.py.  The Logger owns a session directory
derived from a sanitized prefix argument.  Directory creation and file
writes are external effects; the embedding returns the strings the code
would pass to them. -/

/-- s.replace of the null character by the empty string. -/
def stripNull (s : String) : String :=
  String.mk (s.data.filter (fun c => c ≠ '\x00'))

/-- Embedding of Logger._sanitize_path (PrintUtils.py lines 43-58):
reject the empty string, then strip null bytes, normalize with
os.path.normpath, and reject when the result contains ".." as a
substring or starts with a slash or a backslash; otherwise return the
normalized (cleaned, not original) path. -/
def sanitize_path (p : String) : Except String String :=
  if p.data = [] then .error "Path cannot be empty"
  else
    let cleaned := pyNormpath (stripNull p)
    if containsSub "..".data cleaned.data || leadSlash cleaned.data ||
        strPre "\\" cleaned then .error "Invalid path"
    else .ok cleaned

/-- s with null bytes, forward slashes and backslashes removed
(the cleaning step of Logger._validate_filename). -/
def cleanFilename (s : String) : String :=
  String.mk (s.data.filter (fun c => c ≠ '\x00' && c ≠ '/' && c ≠ '\\'))

/-- Embedding of Logger._validate_filename (PrintUtils.py lines 60-72):
reject the empty string; remove null bytes and both separator
characters; reject when the cleaned name still contains ".." as a
substring; otherwise return the cleaned (not original) name. -/
def validate_filename (f : String) : Except String String :=
  if f.data = [] then .error "Filename cannot be empty"
  else if containsSub "..".data (cleanFilename f).data then
    .error "Invalid filename"
  else .ok (cleanFilename f)

/-- Embedding of Logger.__init__ (PrintUtils.py lines 13-41) up to its
external effects, with the working directory and timestamp as
parameters: sanitize the prefix argument, join the timestamped session
directory name, take absolute paths, check containment with startswith,
and on success return the session directory together with the directory
tree that os.makedirs would create.  Any raised ValueError propagates
(the except clause at lines 39-41 re-raises). -/
def logger_init (cwd : String) (timestamp : String) (logfilePrefixArg : String) :
    Except String (String × String) :=
  match sanitize_path logfilePrefixArg with
  | .error e => .error e
  | .ok p =>
      let logDirAbs := pyAbspath cwd (pyJoin p ("Generation_" ++ timestamp))
      if ¬ strPre (pyAbspath cwd p) logDirAbs then .error "Path traversal detected"
      else .ok (logDirAbs, pyJoin logDirAbs "LangchainDebug")

/-- The mutable Logger state relevant to SaveLangchain: the session
directory, the debug-dump sequence counter, and the in-memory log
entries. -/
structure LoggerState where
  logDirPath : String
  langchainID : Nat
  logItems : List String
deriving DecidableEq, Repr

/-- An exception raised inside SaveLangchain's try block. -/
inductive SaveErr where
  | valueError (msg : String)
  | typeError (msg : String)
deriving DecidableEq, Repr

/-- The body of Logger.SaveLangchain's try block (PrintUtils.py lines
88-102) up to the file writes: validate the id and the chain's type,
sanitize the id as a filename, build the sequence-numbered base name,
and confine the .json and .md target paths under the LangchainDebug
subdirectory.  Returns the two target paths. -/
def save_langchain_core (cwd : String) (st : LoggerState) (chainId : String)
    (chainIsList : Bool) : Except SaveErr (String × String) :=
  if chainId.data = [] then .error (.valueError "LangChainID cannot be empty")
  else if ¬ chainIsList then .error (.typeError "LangChain must be a list")
  else
    match validate_filename chainId with
    | .error e => .error (.valueError e)
    | .ok sanitized =>
        match secure_path_join cwd st.logDirPath ["LangchainDebug",
            toString st.langchainID ++ "_" ++ sanitized ++ ".json"] with
        | .error e => .error (.valueError e)
        | .ok jsonPath =>
            match secure_path_join cwd st.logDirPath ["LangchainDebug",
                toString st.langchainID ++ "_" ++ sanitized ++ ".md"] with
            | .error e => .error (.valueError e)
            | .ok mdPath => .ok (jsonPath, mdPath)

/-- What a call to SaveLangchain does: the state afterwards, the files
written, and whether the except clause (which prints, logs the error at
level 7 and falls off the end of the method) ran. -/
structure SaveOutcome where
  state : LoggerState
  wrote : List String
  errorCaught : Bool
deriving DecidableEq, Repr

/-- Embedding of Logger.SaveLangchain (PrintUtils.py lines 86-124): the
try body computes the two confined paths, increments the counter, writes
both files and logs at level 5; the except clause catches OSError,
IOError, ValueError and TypeError, prints, logs the error at level 7,
and returns normally.  Exceptions raised by validation or path
confinement therefore never escape this method. -/
def SaveLangchain (cwd : String) (st : LoggerState) (chainId : String)
    (chainIsList : Bool) : SaveOutcome :=
  match save_langchain_core cwd st chainId chainIsList with
  | .error _ =>
      { state := { st with logItems := st.logItems ++ ["Error saving langchain"] }
        wrote := []
        errorCaught := true }
  | .ok (jsonPath, mdPath) =>
      { state := { st with
          langchainID := st.langchainID + 1
          logItems := st.logItems ++ ["Wrote This Language Chain"] }
        wrote := [jsonPath, mdPath]
        errorCaught := false }

/-! ## Tools/Test.py: command construction

Source: src/Tools/Test.py lines 72-265.  execute_command_safely passes
the argument list to subprocess.run without shell=True, so the command
stays an argument vector; the embedding's command type is List String
and run_story_generation returns the exact vector handed to it. -/

/-- ALLOWED_MODELS (Test.py lines 73-79). -/
def ALLOWED_MODELS : List String :=
  ["llama3.2:latest", "llama3.1:latest", "mistral:7b",
   "gemini-1.5-pro", "gemini-1.5-flash"]

/-- Embedding of Test.py's validate_model_name (lines 113-123):
membership in ALLOWED_MODELS. -/
def validate_model_allowed (m : String) : Bool := ALLOWED_MODELS.contains m

/-- MAX_PROMPT_LENGTH (Test.py line 81). -/
def MAX_PROMPT_LENGTH : Nat := 5000

/-- The safe_flags allow-list inside run_story_generation
(Test.py line 251). -/
def safeFlags : List String := ["-debug", "-expand_outline", "-no_revision"]

/-- A validation failure raised by run_story_generation. -/
inductive CmdErr where
  | invalidModel (m : String)
  | promptTooLong
  | promptEmpty
deriving DecidableEq, Repr

/-- Embedding of run_story_generation (Test.py lines 200-265): validate
the main model against the allow-list and the prompt's length and
non-emptiness, raising ValueError on failure; build the command vector;
append each optional model flag only when the argument is truthy and
allow-listed (an invalid optional model is skipped without error);
split the flags string on whitespace and append only allow-listed
tokens, dropping the rest with a warning.  The resulting vector is what
execute_command_safely receives. -/
def run_story_generation (prompt model : String)
    (outline_model chapter_model flags : Option String) :
    Except CmdErr (List String) :=
  if ¬ validate_model_allowed model then .error (.invalidModel model)
  else if prompt.length > MAX_PROMPT_LENGTH then .error .promptTooLong
  else if (pyStrip prompt).length = 0 then .error .promptEmpty
  else
    let command := ["python", "Write.py", "-Prompt", prompt]
    let command := command ++ (match outline_model with
      | some s =>
          if s.data ≠ [] && validate_model_allowed s then
            ["-InitialOutlineModel", s] else []
      | none => [])
    let command := command ++ (match chapter_model with
      | some s =>
          if s.data ≠ [] && validate_model_allowed s then
            ["-ChapterModel", s] else []
      | none => [])
    let command := match flags with
      | some f =>
          if f.data ≠ [] then
            (pyTokens f).foldl
              (fun c fl => if safeFlags.contains fl then c ++ [fl] else c)
              command
          else command
      | none => command
    .ok command

/-! ## Wrapper.py: model-identifier parsing and loading

Source: src/Writer/Interface/Wrapper.py lines 243-361.  The ollama
package and its network client are external collaborators, abstracted
as boolean oracles; the registry of loaded clients records, for each
parsed model name, the host its client was built with. -/

/-- The parse of a model identifier: provider, optional host, name. -/
structure ParsedModel where
  provider : String
  host : Option String
  name : String
deriving DecidableEq, Repr

/-- The parsing step of _load_single_model (Wrapper.py lines 290-304):
if the identifier contains a scheme separator, split at its first
occurrence into provider and remainder, then split the remainder at its
last colon into host and name (name defaulting to the literal string
default when the remainder has no colon); otherwise split at the first
colon into provider and name; otherwise the provider defaults to ollama
and the whole identifier is the name. -/
def parse_model_string (m : String) : ParsedModel :=
  match splitFirstSub "://".data m.data with
  | some p =>
      match rsplitLastChar ':' p.2 with
      | some q => ⟨String.mk p.1, some (String.mk q.1), String.mk q.2⟩
      | none => ⟨String.mk p.1, some (String.mk p.2), "default"⟩
  | none =>
      match splitFirstSub [':'] m.data with
      | some p => ⟨String.mk p.1, none, String.mk p.2⟩
      | none => ⟨"ollama", none, m⟩

/-- An observable step the loader performs: parsing an identifier,
validating a provider or a name, or calling the ollama collaborator
(client.show, client.pull). -/
inductive Event where
  | parse (m : String)
  | checkProvider (p : String)
  | checkName (n : String)
  | clientShow (host : Option String) (name : String)
  | clientPull (host : Option String) (name : String)
deriving DecidableEq, Repr

/-- An exception escaping a load operation. -/
inductive LoadErr where
  | valueError (msg : String)
  | importError
  | collaboratorError
deriving DecidableEq, Repr

/-- The external collaborators of the loader: whether the ollama import
succeeds and whether client.show / client.pull succeed for a given
host and model name. -/
structure ProviderEnv where
  ollamaImportOk : Bool
  showOk : Option String → String → Bool
  pullOk : Option String → String → Bool

/-- self.clients: the registry of loaded clients, keyed by model name,
recording the host each client was built with. -/
structure Registry where
  clients : List (String × Option String)
deriving DecidableEq, Repr

/-- The keys of the registry. -/
def Registry.keys (r : Registry) : List String := r.clients.map Prod.fst

/-- Python dict assignment clients[name] = client: overwrite in place
when the key exists, else append. -/
def Registry.insertClient (r : Registry) (name : String) (host : Option String) :
    Registry :=
  if r.keys.contains name then
    ⟨r.clients.map (fun kv => if kv.1 = name then (name, host) else kv)⟩
  else ⟨r.clients ++ [(name, host)]⟩

/-- Embedding of _load_ollama_model (Wrapper.py lines 325-361): import
ollama (ImportError propagates), try client.show; on its failure try
client.pull; on success of either store the client under the parsed
model name; a pull failure propagates.  Returns the outcome and the
collaborator calls made. -/
def load_ollama_model (env : ProviderEnv) (r : Registry) (name : String)
    (host : Option String) : Except LoadErr Registry × List Event :=
  if ¬ env.ollamaImportOk then (.error .importError, [])
  else if env.showOk host name then
    (.ok (r.insertClient name host), [.clientShow host name])
  else if env.pullOk host name then
    (.ok (r.insertClient name host), [.clientShow host name, .clientPull host name])
  else (.error .collaboratorError, [.clientShow host name, .clientPull host name])

/-- Embedding of _load_single_model (Wrapper.py lines 275-323): return
at once when the raw identifier is already a registry key; otherwise
parse it, validate the provider and the parsed name (ValueError on
failure), then dispatch: the ollama provider loads through
_load_ollama_model, any other allowed provider logs a not-yet-implemented
warning and returns normally without touching the registry.  Returns
the outcome and the steps performed. -/
def load_single_model (env : ProviderEnv) (r : Registry) (m : String) :
    Except LoadErr Registry × List Event :=
  if r.keys.contains m then (.ok r, [])
  else
    let pm := parse_model_string m
    let ev0 := [Event.parse m, Event.checkProvider pm.provider]
    if ¬ validate_provider pm.provider then
      (.error (.valueError "Invalid provider"), ev0)
    else
      let ev1 := ev0 ++ [Event.checkName pm.name]
      if ¬ validate_model_name pm.name then
        (.error (.valueError "Invalid model name"), ev1)
      else if pm.provider = "ollama" then
        let res := load_ollama_model env r pm.name pm.host
        (res.1, ev1 ++ res.2)
      else (.ok r, ev1)

/-- One iteration of load_models' loop (Wrapper.py lines 258-268) over
the accumulator (success flag, registry, steps so far): validate the
raw identifier first — on failure mark failure and skip the load —
otherwise run _load_single_model, catching its exceptions into the
failure flag. -/
def loadModelsStep (env : ProviderEnv) (acc : Bool × Registry × List Event)
    (m : String) : Bool × Registry × List Event :=
  if ¬ validate_model_name m then
    (false, acc.2.1, acc.2.2 ++ [Event.checkName m])
  else
    match load_single_model env acc.2.1 m with
    | (.ok r2, ev) => (acc.1, r2, acc.2.2 ++ [Event.checkName m] ++ ev)
    | (.error _, ev) => (false, acc.2.1, acc.2.2 ++ [Event.checkName m] ++ ev)

/-- Embedding of load_models (Wrapper.py lines 243-273): fold the step
over the identifiers, starting from success. -/
def load_models (env : ProviderEnv) (r : Registry) (models : List String) :
    Bool × Registry × List Event :=
  models.foldl (loadModelsStep env) (true, r, [])

/-! ## Spec-side conditions and concrete environments

Definitions in this block are not translations of the source: they state
the acceptance conditions the claims assert, written from the spec's
words, for comparison against the embedded code, plus concrete oracle
environments used to evaluate the embedded code at specific inputs. -/

/-- Whether an Except value is a success. -/
def isOkE {ε α : Type} : Except ε α → Bool
  | .ok _ => true
  | .error _ => false

/-- The acceptance condition the spec states for path confinement: the
fully resolved candidate lies under the resolved base treated as a
directory prefix (component-wise, so base /a cannot claim /ab/...), the
pre-resolution candidate contains no parent-directory segment, and the
candidate is not itself absolute. -/
def specConfineOk (cwd : List String) (base_dir file_path : String) : Bool :=
  (pyResolve cwd base_dir).isPrefixOf (joinedTarget cwd base_dir file_path) &&
    !(pathComps file_path).contains ".." && !isAbs file_path

/-- The fixed filename allow-list the spec states. -/
def filenameAllowList : List String :=
  ["config.json", "model.bin", "history.json", "state.yaml"]

/-- The fixed extension allow-list the spec states. -/
def extAllowList : List String := [".bin", ".json", ".txt", ".yaml"]

/-- The extension of a filename: from its last dot, empty when it has
none. -/
def fileExt (f : String) : String :=
  match rsplitLastChar '.' f.data with
  | some p => String.mk ('.' :: p.2)
  | none => ""

/-- The acceptance condition the spec states for filenames: at most 128
characters, no separator characters anywhere (hence equal to its own
base name and not rooted), no parent-directory segment, and either an
exact allow-listed name or an allow-listed extension. -/
def specFilenameOk (f : String) : Bool :=
  f.length ≤ 128 && !f.data.contains '/' && !f.data.contains '\\' &&
    !containsSub "..".data f.data &&
    (filenameAllowList.contains f || extAllowList.contains (fileExt f))

/-- A filesystem in which every path exists, is a regular file, and
parses as JSON. -/
def fsAll : FileSys :=
  { existsAt := fun _ => true
    isFileAt := fun _ => true
    jsonAt := fun _ => some "data" }

/-- A provider environment in which the ollama import and every show
and pull call succeed. -/
def envAll : ProviderEnv :=
  { ollamaImportOk := true
    showOk := fun _ _ => true
    pullOk := fun _ _ => true }

/-- The arguments run_story_generation contributes for one optional
model parameter: present exactly when the argument is truthy and
allow-listed. -/
def optModelArg (flag : String) (o : Option String) : List String :=
  match o with
  | some s =>
      if s.data ≠ [] && validate_model_allowed s then [flag, s] else []
  | none => []

/-- The flag tokens run_story_generation keeps: the whitespace-separated
tokens of a truthy flags argument that are on the safe_flags allow-list. -/
def keptFlags (flags : Option String) : List String :=
  match flags with
  | some f =>
      if f.data ≠ [] then (pyTokens f).filter (fun t => safeFlags.contains t)
      else []
  | none => []

/-! ## Theorems -/

/-- Claim C1: the claim states that the confinement operations accept a
candidate iff the resolved candidate lies under the resolved base as a
directory prefix, the candidate has no parent-directory segment, and is
not rooted.  The code instead compares resolved strings with a naive
startswith: for base /a the candidate ../ab/x resolves to /ab/x, which
is outside /a and contains a parent-directory segment, yet
safe_load_json_file's check accepts it and loads the file, and
Logger._secure_path_join accepts the same escape and returns the
escaped path. -/
theorem c1_naive_startswith_escape :
    safe_load_json_check [] "/a" "../ab/x" = true ∧
    reprPath (joinedTarget [] "/a" "../ab/x") = "/ab/x" ∧
    specConfineOk [] "/a" "../ab/x" = false ∧
    safe_load_json_file fsAll [] "../ab/x" "/a" = some "data" ∧
    secure_path_join "/" "/a" ["../ab/x"] = .ok "/ab/x" :=
  ⟨by decide, by decide, by decide, rfl, rfl⟩

/-- Claim C2 counterexample: the claim's first table row says
"llama3.2:latest" parses to the local default provider with the whole
string as name; the parse step instead splits at the first colon,
yielding provider "llama3.2" and name "latest". -/
theorem c2_parse_table_counterexample :
    parse_model_string "llama3.2:latest" =
      ⟨"llama3.2", none, "latest"⟩ ∧
    ("llama3.2" : String) ≠ "ollama" := ⟨rfl, by decide⟩

/-- Claim C2 amended: a colon-containing identifier without a scheme
separator is always split at its first colon — so "llama3.2:latest"
parses to provider "llama3.2" (which then fails provider validation)
with name "latest" — while the remaining rows of the table hold as
stated: "ollama:llama3.2:latest" splits at the first colon,
"ollama://myhost:7b" splits the remainder at its last colon, and
"ollama://myhost" gets the literal name "default". -/
theorem c2_parse_table_amended :
    parse_model_string "llama3.2:latest" = ⟨"llama3.2", none, "latest"⟩ ∧
    validate_provider "llama3.2" = false ∧
    parse_model_string "ollama:llama3.2:latest" =
      ⟨"ollama", none, "llama3.2:latest"⟩ ∧
    parse_model_string "ollama://myhost:7b" =
      ⟨"ollama", some "myhost", "7b"⟩ ∧
    parse_model_string "ollama://myhost" =
      ⟨"ollama", some "myhost", "default"⟩ :=
  ⟨rfl, by decide, rfl, rfl, rfl⟩

/-- Claim C4 counterexample: the claim says the filename check rejects
"x.exe" (extension not allow-listed, name not allow-listed); the code's
_validate_filename has no length bound and no allow-lists, and accepts
"x.exe" unchanged. -/
theorem c4_filename_counterexample :
    validate_filename "x.exe" = .ok "x.exe" ∧
    specFilenameOk "x.exe" = false := ⟨rfl, by decide⟩

/-- Claim C5 counterexample: the claim says run_story_generation raises
a validation error when its optional outline_model fails model
validation; the code instead silently omits the flag and proceeds, so
an invalid outline model yields a successful command without it. -/
theorem c5_error_downgrade_counterexample :
    run_story_generation "hi" "llama3.2:latest" (some "bad;model") none none =
      .ok ["python", "Write.py", "-Prompt", "hi"] ∧
    validate_model_allowed "bad;model" = false := ⟨rfl, by decide⟩

/-- Claim C6 counterexample: the claim says a second load request for an
identifier that already loaded successfully is a no-op with no further
validation, parsing, or provider call.  Loading "ollama:a" stores the
client under the parsed name "a", so a second request for "ollama:a"
misses the registry check and performs parsing, both validations, and a
provider show call again. -/
theorem c6_idempotence_counterexample :
    load_single_model envAll ⟨[]⟩ "ollama:a" =
      (.ok ⟨[("a", none)]⟩,
        [.parse "ollama:a", .checkProvider "ollama", .checkName "a",
         .clientShow none "a"]) ∧
    load_single_model envAll ⟨[("a", none)]⟩ "ollama:a" =
      (.ok ⟨[("a", none)]⟩,
        [.parse "ollama:a", .checkProvider "ollama", .checkName "a",
         .clientShow none "a"]) := ⟨rfl, rfl⟩

/-- Claim C7 counterexample: the claim's characterization says every
rejected string has a character outside the class or exceeds the length
bound (and that this decides the empty string); the empty string is
rejected by validate_model_name although all of its (zero) characters
are in the class and its length is within the bound. -/
theorem c7_charclass_counterexample :
    validate_model_name "" = false ∧
    (∀ c ∈ ("" : String).data, isModelChar c = true) ∧
    ("" : String).length ≤ 200 := by
  refine ⟨rfl, by decide, by decide⟩

/-- Claim C8 counterexample: the claim says every validator returns a
boolean and throws no exception on any input; validate_provider calls
.lower() without an isinstance guard, so the integer 0 raises
AttributeError. -/
theorem c8_totality_counterexample :
    validate_provider_py (.int 0) = .error .attributeError := rfl

/-- Claim C9 counterexample: the claim says a prefix containing a null
byte is rejected, not cleaned; Logger._sanitize_path strips the null
byte and proceeds, so a session opens under the cleaned prefix and the
directory tree is created. -/
theorem c9_sanitize_counterexample :
    sanitize_path "Lo\x00gs" = .ok "Logs" ∧
    logger_init "/cwd" "T" "Lo\x00gs" =
      .ok ("/cwd/Logs/Generation_T", "/cwd/Logs/Generation_T/LangchainDebug") :=
  ⟨rfl, rfl⟩

/-- Claim C8 amended: validate_model_name and validate_package_name are
total over arbitrary values and reject non-string input immediately;
validate_provider is total over strings but raises AttributeError on
every non-string input instead of returning a boolean. -/
theorem c8_totality_amended :
    (∀ v, isOkE (validate_model_name_py v) = true) ∧
    (∀ v, v.isStr = false → validate_model_name_py v = .ok false) ∧
    (∀ v, isOkE (validate_package_name_py v) = true) ∧
    (∀ v, v.isStr = false → validate_package_name_py v = .ok false) ∧
    (∀ s, isOkE (validate_provider_py (.str s)) = true) ∧
    (∀ v, v.isStr = false → validate_provider_py v = .error .attributeError) := by
  refine ⟨fun v => ?_, fun v h => ?_, fun v => ?_, fun v h => ?_,
    fun s => rfl, fun v h => ?_⟩
  all_goals cases v <;> first | rfl | exact absurd h (by simp [PyValue.isStr])

/-- Witness for c8_totality_amended at concrete values. -/
theorem c8_totality_amended_witness :
    isOkE (validate_model_name_py (.str "m")) = true ∧
    validate_model_name_py .noneV = .ok false ∧
    validate_package_name_py (.int 3) = .ok false ∧
    isOkE (validate_provider_py (.str "ollama")) = true ∧
    validate_provider_py (.boolV true) = .error .attributeError :=
  ⟨c8_totality_amended.1 (.str "m"), c8_totality_amended.2.1 .noneV rfl,
   c8_totality_amended.2.2.2.1 (.int 3) rfl,
   c8_totality_amended.2.2.2.2.1 "ollama",
   c8_totality_amended.2.2.2.2.2 (.boolV true) rfl⟩

/-- Claim C4 amended: the filename check accepts a filename iff it is
nonempty and the name obtained by deleting null bytes and both
separator characters contains no ".." substring, and the value it
returns is that cleaned name; it has no length bound and no name or
extension allow-list.  In particular config.json and model.bin are
accepted and ../secret.json is rejected as the claim says, but
a/b.json is cleaned to ab.json and accepted, and x.exe is accepted. -/
theorem c4_filename_amended :
    (∀ f, isOkE (validate_filename f) = true ↔
       (f.data ≠ [] ∧ containsSub "..".data (cleanFilename f).data = false)) ∧
    (∀ f r, validate_filename f = .ok r → r = cleanFilename f) ∧
    validate_filename "config.json" = .ok "config.json" ∧
    validate_filename "model.bin" = .ok "model.bin" ∧
    isOkE (validate_filename "../secret.json") = false ∧
    validate_filename "a/b.json" = .ok "ab.json" := by
  refine ⟨fun f => ?_, fun f r h => ?_, rfl, rfl, rfl, rfl⟩
  · unfold validate_filename
    split
    · simp_all [isOkE]
    · split <;> simp_all [isOkE]
  · unfold validate_filename at h
    split at h
    · exact absurd h (by simp)
    · split at h
      · exact absurd h (by simp)
      · exact (Except.ok.inj h).symm

/-- Witness for c4_filename_amended at a concrete filename. -/
theorem c4_filename_amended_witness :
    (isOkE (validate_filename "x.txt") = true ↔
      (("x.txt" : String).data ≠ [] ∧
        containsSub "..".data (cleanFilename "x.txt").data = false)) ∧
    ("x.txt" : String) = cleanFilename "x.txt" :=
  ⟨c4_filename_amended.1 "x.txt", c4_filename_amended.2.1 "x.txt" "x.txt" rfl⟩

/-- Characterization of validate_model_name over all strings: it
accepts s iff s is within the length bound and is a nonempty run of
class characters, optionally followed by one trailing newline (the
Python dollar-anchor semantics). -/
theorem validate_model_name_iff (s : String) :
    validate_model_name s = true ↔
      s.length ≤ 200 ∧
        ((s.data ≠ [] ∧ ∀ c ∈ s.data, isModelChar c = true) ∨
          (s.data.getLast? = some '\n' ∧ s.data.dropLast ≠ [] ∧
            ∀ c ∈ s.data.dropLast, isModelChar c = true)) := by
  unfold validate_model_name reMatchClassPlus
  split
  · next hlen =>
      exact iff_of_false (by simp) (by rintro ⟨hle, -⟩; omega)
  · next hlen =>
      have hle : s.length ≤ 200 := by omega
      simp [hle, List.all_eq_true, and_assoc]

/-- Claim C7 amended: the exact characterization of validate_model_name:
acceptance is equivalent to the length bound together with being a
nonempty all-class run optionally followed by a single trailing newline;
so the empty string is rejected despite having no out-of-class
character, and a trailing newline (outside the class) is accepted. -/
theorem c7_charclass_amended (s : String) :
    validate_model_name s = true ↔
      s.length ≤ 200 ∧
        ((s.data ≠ [] ∧ ∀ c ∈ s.data, isModelChar c = true) ∨
          (s.data.getLast? = some '\n' ∧ s.data.dropLast ≠ [] ∧
            ∀ c ∈ s.data.dropLast, isModelChar c = true)) :=
  validate_model_name_iff s

/-- Appending allow-listed tokens one at a time onto an accumulator is
appending the filtered token list. -/
theorem foldl_append_filter (safe toks acc : List String) :
    toks.foldl (fun c fl => if safe.contains fl then c ++ [fl] else c) acc =
      acc ++ toks.filter (fun t => safe.contains t) := by
  induction toks generalizing acc with
  | nil => exact (List.append_nil acc).symm
  | cons t ts ih =>
      rw [List.foldl_cons, List.filter_cons]
      by_cases h : safe.contains t = true
      · rw [if_pos h, if_pos h, ih, List.append_assoc]
        rfl
      · rw [if_neg h, if_neg h, ih]

/-- A validated run_story_generation call computes exactly the base
vector, the optional validated model pairs, and the kept flags. -/
theorem run_story_generation_eq (p m : String) (om cm fl : Option String)
    (h1 : validate_model_allowed m = true)
    (h2 : ¬ p.length > MAX_PROMPT_LENGTH)
    (h3 : ¬ (pyStrip p).length = 0) :
    run_story_generation p m om cm fl =
      .ok (["python", "Write.py", "-Prompt", p] ++
        optModelArg "-InitialOutlineModel" om ++
        optModelArg "-ChapterModel" cm ++ keptFlags fl) := by
  unfold run_story_generation
  rw [if_neg (by simp [h1]), if_neg h2, if_neg h3]
  cases fl with
  | none => cases om <;> cases cm <;> simp [optModelArg, keptFlags]
  | some f =>
      cases om <;> cases cm <;>
        (simp only [optModelArg, keptFlags]
         split <;> first | (rw [foldl_append_filter]; try simp) | simp)

/-- Claim C3: every run_story_generation call that passes validation
produces exactly the vector ["python", "Write.py", "-Prompt", prompt]
(the prompt as one single element), followed by the optional validated
outline/chapter model pairs, followed by exactly the allow-listed
whitespace-separated tokens of the flags argument — every other token
is dropped and never appears.  The vector is handed as a list to
execute_command_safely, which passes it to the process runner without
any shell string. -/
theorem c3_command_vector (prompt model : String)
    (om cm fl : Option String) (cmd : List String)
    (h : run_story_generation prompt model om cm fl = .ok cmd) :
    cmd = ["python", "Write.py", "-Prompt", prompt] ++
      optModelArg "-InitialOutlineModel" om ++
      optModelArg "-ChapterModel" cm ++ keptFlags fl ∧
    validate_model_allowed model = true ∧
    ∀ t ∈ keptFlags fl, safeFlags.contains t = true := by
  have h0 := h
  unfold run_story_generation at h
  split at h
  · exact absurd h (by simp)
  next hm =>
  split at h
  next h2 => exact absurd h (by simp)
  next h2 =>
  split at h
  next h3 => exact absurd h (by simp)
  next h3 =>
  have hm' : validate_model_allowed model = true := not_not.mp hm
  rw [run_story_generation_eq prompt model om cm fl hm' h2 h3] at h0
  refine ⟨(Except.ok.inj h0).symm, hm', ?_⟩
  intro t ht
  match fl with
  | none => simp [keptFlags] at ht
  | some f =>
      simp only [keptFlags] at ht
      split at ht
      · exact (List.mem_filter.mp ht).2
      · simp at ht

/-- Witness for c3_command_vector at a concrete call. -/
theorem c3_command_vector_witness :
    (["python", "Write.py", "-Prompt", "hi", "-debug"] : List String) =
      ["python", "Write.py", "-Prompt", "hi"] ++
        optModelArg "-InitialOutlineModel" (some "x") ++
        optModelArg "-ChapterModel" none ++ keptFlags (some "-debug rm") ∧
    validate_model_allowed "llama3.2:latest" = true ∧
    ∀ t ∈ keptFlags (some "-debug rm"), safeFlags.contains t = true :=
  c3_command_vector "hi" "llama3.2:latest" (some "x") none (some "-debug rm")
    ["python", "Write.py", "-Prompt", "hi", "-debug"] rfl

/-- Claim C5 amended: run_story_generation silently omits an optional
outline/chapter model that fails validation and proceeds as if it were
absent (no error is raised); SaveLangchain catches a filename/path
validation failure, logs it, writes nothing and returns normally (the
error does not propagate); safe_load_json_file surfaces a detected
traversal as the error value None, never as data. -/
theorem c5_error_paths_amended :
    (∀ p m om cm fl, validate_model_allowed om = false →
       run_story_generation p m (some om) cm fl =
         run_story_generation p m none cm fl) ∧
    (∀ cwd st chainId b, isOkE (validate_filename chainId) = false →
       (SaveLangchain cwd st chainId b).wrote = [] ∧
       (SaveLangchain cwd st chainId b).errorCaught = true) ∧
    (∀ fsys cwd fp bd, safe_load_json_check cwd bd fp = false →
       safe_load_json_file fsys cwd fp bd = none) := by
  refine ⟨fun p m om cm fl hv => ?_, fun cwd st chainId b hv => ?_,
    fun fsys cwd fp bd hc => ?_⟩
  · simp [run_story_generation, hv]
  · cases hval : validate_filename chainId with
    | ok s => rw [hval] at hv; exact absurd hv (by simp [isOkE])
    | error e =>
        by_cases hid : chainId.data = [] <;> cases b <;>
          simp [SaveLangchain, save_langchain_core, hid, hval]
  · simp [safe_load_json_file, hc]

/-- Witness for c5_error_paths_amended at concrete inputs. -/
theorem c5_error_paths_amended_witness :
    (run_story_generation "hi" "llama3.2:latest" (some "nope") none none =
      run_story_generation "hi" "llama3.2:latest" none none none) ∧
    ((SaveLangchain "/" ⟨"/d", 0, []⟩ ".." true).wrote = [] ∧
      (SaveLangchain "/" ⟨"/d", 0, []⟩ ".." true).errorCaught = true) ∧
    safe_load_json_file fsAll [] "../zz/f" "/b" = none :=
  ⟨c5_error_paths_amended.1 "hi" "llama3.2:latest" "nope" none none (by decide),
   c5_error_paths_amended.2.1 "/" ⟨"/d", 0, []⟩ ".." true (by decide),
   c5_error_paths_amended.2.2 fsAll [] "../zz/f" "/b" (by decide)⟩

/-- A separator that starts with a colon never occurs in a string
without a colon. -/
theorem splitFirstSub_none_of_no_colon (sep cs : List Char)
    (hsep : sep.head? = some ':') (h : ':' ∉ cs) :
    splitFirstSub sep cs = none := by
  induction cs with
  | nil => rfl
  | cons c rest ih =>
      have hc : c ≠ ':' := fun he => h (he ▸ List.mem_cons_self c rest)
      have hr : ':' ∉ rest := fun hm => h (List.mem_cons_of_mem c hm)
      unfold splitFirstSub
      have hpre : sep.isPrefixOf (c :: rest) = false := by
        cases sep with
        | nil => simp at hsep
        | cons s0 stail =>
            have : s0 = ':' := by simpa using hsep
            subst this
            simp [List.isPrefixOf]
            intro he
            exact absurd he.symm hc
      rw [hpre]
      simp [ih hr]

/-- A colon-free identifier parses to the default ollama provider, no
host, and itself as the model name. -/
theorem parse_model_string_no_colon (m : String) (h : ':' ∉ m.data) :
    parse_model_string m = ⟨"ollama", none, m⟩ := by
  unfold parse_model_string
  rw [splitFirstSub_none_of_no_colon "://".data m.data rfl h,
    splitFirstSub_none_of_no_colon [':'] m.data rfl h]

/-- Inserting a client leaves its model name among the registry keys. -/
theorem insertClient_contains_self (r : Registry) (n : String)
    (ho : Option String) :
    (r.insertClient n ho).keys.contains n = true := by
  unfold Registry.insertClient
  by_cases h : r.keys.contains n = true
  · rw [if_pos h]
    unfold Registry.keys at h ⊢
    rw [List.contains_iff_exists_mem_beq] at h ⊢
    obtain ⟨k, hk, hbeq⟩ := h
    obtain ⟨kv, hkv, rfl⟩ := List.mem_map.mp hk
    refine ⟨n, List.mem_map.mpr ⟨(n, ho), ?_, rfl⟩, by simp⟩
    refine List.mem_map.mpr ⟨kv, hkv, ?_⟩
    have hkn : kv.1 = n := by
      have := (beq_iff_eq (a := n) (b := kv.1)).mp hbeq
      exact this.symm
    simp [hkn]
  · rw [if_neg h]
    unfold Registry.keys
    rw [List.contains_iff_exists_mem_beq]
    exact ⟨n, by simp, by simp⟩

/-- Claim C6 amended: a load request for an identifier that is already
a registry key is a no-op success with no validation, parsing, or
provider call; and a successful load of a colon-free identifier leaves
that identifier itself a registry key, so reloading it is a no-op.  For
identifiers with a provider or host prefix the registry key is the
parsed model name, not the identifier, so a second load request for the
full identifier repeats validation, parsing, and the provider call. -/
theorem c6_idempotence_amended :
    (∀ env r m, r.keys.contains m = true →
       load_single_model env r m = (.ok r, [])) ∧
    (∀ env r r2 ev m, ':' ∉ m.data →
       load_single_model env r m = (.ok r2, ev) →
       r2.keys.contains m = true) := by
  constructor
  · intro env r m h
    unfold load_single_model
    rw [if_pos h]
  · intro env r r2 ev m hc hl
    by_cases hk : r.keys.contains m = true
    · unfold load_single_model at hl
      rw [if_pos hk] at hl
      obtain ⟨h1, -⟩ := Prod.mk.inj hl
      exact (Except.ok.inj h1) ▸ hk
    · unfold load_single_model at hl
      rw [if_neg hk, parse_model_string_no_colon m hc] at hl
      simp only [] at hl
      rw [if_neg (by decide : ¬¬(validate_provider "ollama" = true))] at hl
      by_cases hv : validate_model_name m = true
      · rw [if_neg (by simp [hv])] at hl
        rw [if_pos trivial] at hl
        have h1 : (load_ollama_model env r m none).1 = .ok r2 :=
          congrArg Prod.fst hl
        unfold load_ollama_model at h1
        by_cases himp : env.ollamaImportOk = true
        · rw [if_neg (by simp [himp])] at h1
          by_cases hs : env.showOk none m = true
          · rw [if_pos hs] at h1
            simp only [Except.ok.injEq] at h1
            exact h1 ▸ insertClient_contains_self r m none
          · rw [if_neg hs] at h1
            by_cases hp : env.pullOk none m = true
            · rw [if_pos hp] at h1
              simp only [Except.ok.injEq] at h1
              exact h1 ▸ insertClient_contains_self r m none
            · rw [if_neg hp] at h1
              simp at h1
        · rw [if_pos (by simp [himp])] at h1
          simp at h1
      · rw [if_pos (by simp [hv])] at hl
        have h1 := congrArg Prod.fst hl
        simp at h1

/-- Witness for c6_idempotence_amended at concrete registries. -/
theorem c6_idempotence_amended_witness :
    load_single_model envAll ⟨[("b", none)]⟩ "b" = (.ok ⟨[("b", none)]⟩, []) ∧
    (⟨[("a", none)]⟩ : Registry).keys.contains "a" = true :=
  ⟨c6_idempotence_amended.1 envAll ⟨[("b", none)]⟩ "b" (by decide),
   c6_idempotence_amended.2 envAll ⟨[]⟩ ⟨[("a", none)]⟩
     [.parse "a", .checkProvider "ollama", .checkName "a", .clientShow none "a"]
     "a" (by decide) rfl⟩

/-- Claim C9 amended: opening a log session rejects the empty prefix,
and rejects any prefix whose null-stripped normalization still contains
".." or begins with a separator, creating nothing; but null bytes are
stripped rather than rejected, and a parent-directory segment that
cancels during normalization (such as in a/../b) is accepted. -/
theorem c9_sanitize_amended :
    (∀ cwd ts, logger_init cwd ts "" = .error "Path cannot be empty") ∧
    (∀ cwd ts p, containsSub "..".data (pyNormpath (stripNull p)).data = true →
       isOkE (logger_init cwd ts p) = false) ∧
    (∀ cwd ts p, leadSlash (pyNormpath (stripNull p)).data = true →
       isOkE (logger_init cwd ts p) = false) ∧
    sanitize_path "a/../b" = .ok "b" := by
  refine ⟨fun cwd ts => rfl, fun cwd ts p h => ?_, fun cwd ts p h => ?_, rfl⟩
  · unfold logger_init sanitize_path
    by_cases hp : p.data = []
    · rw [if_pos hp]
      rfl
    · rw [if_neg hp, if_pos (by simp [h])]
      rfl
  · unfold logger_init sanitize_path
    by_cases hp : p.data = []
    · rw [if_pos hp]
      rfl
    · rw [if_neg hp, if_pos (by simp [h])]
      rfl

/-- Witness for c9_sanitize_amended at concrete prefixes. -/
theorem c9_sanitize_amended_witness :
    logger_init "/c" "T" "" = .error "Path cannot be empty" ∧
    isOkE (logger_init "/c" "T" "../x") = false ∧
    isOkE (logger_init "/c" "T" "/etc") = false :=
  ⟨c9_sanitize_amended.1 "/c" "T",
   c9_sanitize_amended.2.1 "/c" "T" "../x" (by decide),
   c9_sanitize_amended.2.2.1 "/c" "T" "/etc" (by decide)⟩

/-- Membership in a list whose last element is known and different is
membership in its dropLast. -/
theorem mem_dropLast_of_getLast?_ne {l : List Char} {c d : Char}
    (hm : c ∈ l) (hl : l.getLast? = some d) (hne : c ≠ d) :
    c ∈ l.dropLast := by
  induction l with
  | nil => cases hm
  | cons a t ih =>
      cases t with
      | nil =>
          simp only [List.getLast?_singleton, Option.some.injEq] at hl
          rcases List.mem_singleton.mp hm with rfl
          exact absurd hl hne
      | cons b t2 =>
          rw [List.getLast?_cons_cons] at hl
          rw [List.dropLast_cons₂]
          rcases List.mem_cons.mp hm with rfl | hm2
          · exact List.mem_cons_self _ _
          · exact List.mem_cons_of_mem a (ih hm2 hl)

/-- Any identifier containing a slash fails validate_model_name: the
slash is outside the model-name class, whether or not the string ends
in a newline. -/
theorem validate_model_name_no_slash (m : String) (h : '/' ∈ m.data) :
    validate_model_name m = false := by
  cases hb : validate_model_name m
  · rfl
  · exfalso
    rcases (validate_model_name_iff m).mp hb with ⟨-, hcase⟩
    rcases hcase with ⟨-, hall⟩ | ⟨hlast, -, hall⟩
    · exact absurd (hall '/' h) (by decide)
    · exact absurd (hall '/' (mem_dropLast_of_getLast?_ne h hlast (by decide)))
        (by decide)

/-- The ollama loader emits only collaborator-call events, never a
parse event. -/
theorem load_ollama_model_no_parse (env : ProviderEnv) (r : Registry)
    (name : String) (host : Option String) (s : String) :
    Event.parse s ∉ (load_ollama_model env r name host).2 := by
  unfold load_ollama_model
  split
  · simp
  · split
    · simp
    · split <;> simp

/-- Every parse event load_single_model emits carries its own
identifier. -/
theorem load_single_model_parse_event (env : ProviderEnv) (r : Registry)
    (m s : String) (h : Event.parse s ∈ (load_single_model env r m).2) :
    s = m := by
  unfold load_single_model at h
  split at h
  · simp at h
  · simp only [] at h
    split at h
    · simp at h
      exact h
    · split at h
      · simp at h
        exact h
      · split at h
        · rcases List.mem_append.mp h with h1 | h1
          · simp at h1
            exact h1
          · exact absurd h1 (load_ollama_model_no_parse env r _ _ s)
        · simp at h
          exact h

/-- The success flag of the load_models fold never recovers from
failure. -/
theorem loadModels_success_mono (env : ProviderEnv) (ms : List String) :
    ∀ acc : Bool × Registry × List Event, acc.1 = false →
      (ms.foldl (loadModelsStep env) acc).1 = false := by
  induction ms with
  | nil => intro acc h; exact h
  | cons a ms ih =>
      intro acc h
      rw [List.foldl_cons]
      apply ih
      unfold loadModelsStep
      split
      · rfl
      · split
        · exact h
        · rfl

/-- An identifier that fails validation anywhere in the list forces
load_models' fold to report failure. -/
theorem loadModels_fail_of_invalid (env : ProviderEnv) (m : String)
    (hv : validate_model_name m = false) :
    ∀ ms : List String, m ∈ ms →
      ∀ acc : Bool × Registry × List Event,
        (ms.foldl (loadModelsStep env) acc).1 = false := by
  intro ms
  induction ms with
  | nil => intro hm; cases hm
  | cons a ms ih =>
      intro hm acc
      rw [List.foldl_cons]
      rcases List.mem_cons.mp hm with rfl | hm2
      · apply loadModels_success_mono
        unfold loadModelsStep
        rw [if_pos (by simp [hv])]
      · exact ih hm2 _

/-- Through the load_models fold, every parse event is of an identifier
that passed the pre-parse validate_model_name check. -/
theorem loadModels_parse_valid (env : ProviderEnv) :
    ∀ (ms : List String) (acc : Bool × Registry × List Event),
      (∀ s, Event.parse s ∈ acc.2.2 → validate_model_name s = true) →
      ∀ s, Event.parse s ∈ (ms.foldl (loadModelsStep env) acc).2.2 →
        validate_model_name s = true := by
  intro ms
  induction ms with
  | nil => intro acc hacc s hs; exact hacc s hs
  | cons a ms ih =>
      intro acc hacc s hs
      refine ih (loadModelsStep env acc a) ?_ s hs
      intro u hu
      unfold loadModelsStep at hu
      split at hu
      · rcases List.mem_append.mp hu with h1 | h1
        · exact hacc u h1
        · simp at h1
      next hval =>
        have hva : validate_model_name a = true := not_not.mp hval
        split at hu
        next r2 ev heq =>
          rcases List.mem_append.mp hu with h1 | h1
          · rcases List.mem_append.mp h1 with h2 | h2
            · exact hacc u h2
            · simp at h2
          · have hev : (load_single_model env acc.2.1 a).2 = ev :=
              congrArg Prod.snd heq
            have hua : u = a :=
              load_single_model_parse_event env acc.2.1 a u (hev ▸ h1)
            exact hua ▸ hva
        next e ev heq =>
          rcases List.mem_append.mp hu with h1 | h1
          · rcases List.mem_append.mp h1 with h2 | h2
            · exact hacc u h2
            · simp at h2
          · have hev : (load_single_model env acc.2.1 a).2 = ev :=
              congrArg Prod.snd heq
            have hua : u = a :=
              load_single_model_parse_event env acc.2.1 a u (hev ▸ h1)
            exact hua ▸ hva

/-- Claim C10: load_models validates the whole raw identifier against
the model-name class before any parsing, and the slash is outside that
class: every identifier containing a slash — in particular every
scheme-separated identifier such as ollama://myhost:7b — is rejected by
load_models, never parsed and never loaded, and forces the overall
result to failure, even though the parse step itself supports the
scheme form. -/
theorem c10_scheme_rejected :
    (∀ m : String, '/' ∈ m.data → validate_model_name m = false) ∧
    (∀ env r ms s, Event.parse s ∈ (load_models env r ms).2.2 →
       validate_model_name s = true) ∧
    (∀ env r ms m, m ∈ ms → '/' ∈ m.data → (load_models env r ms).1 = false) ∧
    parse_model_string "ollama://myhost:7b" = ⟨"ollama", some "myhost", "7b"⟩ := by
  refine ⟨validate_model_name_no_slash, ?_, ?_, rfl⟩
  · intro env r ms s hs
    exact loadModels_parse_valid env ms (true, r, []) (by simp) s hs
  · intro env r ms m hm hsl
    exact loadModels_fail_of_invalid env m (validate_model_name_no_slash m hsl)
      ms hm _

/-- Witness for c10_scheme_rejected at concrete identifiers. -/
theorem c10_scheme_rejected_witness :
    validate_model_name "ollama://myhost:7b" = false ∧
    validate_model_name "a" = true ∧
    (load_models envAll ⟨[]⟩ ["ollama://myhost:7b"]).1 = false :=
  ⟨c10_scheme_rejected.1 "ollama://myhost:7b" (by decide),
   c10_scheme_rejected.2.1 envAll ⟨[]⟩ ["a"] "a" (by decide),
   c10_scheme_rejected.2.2.1 envAll ⟨[]⟩ ["ollama://myhost:7b"]
     "ollama://myhost:7b" (by decide) (by decide)⟩

end StoryForge
